import Mathlib

/-!
# Verification of the Railway-Status-Crew data pipeline

Shallow embedding of the pipeline implemented in `src/tools.py` and `src/crew.py`:
input validation, the cached status fetcher, the status normalizer (delay
classification and reliability scoring) and the geospatial calculator.

Modelling conventions:
* Python strings are Lean `String`s; `str.strip` and friends are modelled on the
  ASCII whitespace subset below.
* datetimes and `time.time()` values are modelled as integer epoch seconds
  (ISO-format serialization is a bijection onto datetimes and is left implicit);
  calendar dates are modelled as integer day ordinals.
* library parsers (`datetime.strptime`, `datetime.fromisoformat`) and the two
  `re.search` extractions inside the snippet scraper are supplied as oracle
  functions, since their claims quantify only over "parseable"/"matched" inputs.
* Python float arithmetic in the reliability score is modelled over `ℚ`
  (all reachable values are exact multiples of 0.1, so this is faithful);
  trigonometric float math in the Haversine formula is modelled over `ℝ`.
* dictionaries are modelled as structures with `Option` fields for optional keys;
  fallible stages return `Except`/sum types instead of raising.
-/

/-! ## Python string primitives -/

/-- Whitespace characters removed by Python `str.strip()` (ASCII subset). -/
def isPyWs (c : Char) : Bool :=
  c = ' ' || c = '\t' || c = '\n' || c = '\r' || c = Char.ofNat 11 || c = Char.ofNat 12

/-- Drop characters satisfying `p` from both ends of a list. -/
def dropEnds (p : Char → Bool) (l : List Char) : List Char :=
  ((l.dropWhile p).reverse.dropWhile p).reverse

/-- Python `str.strip()`. -/
def pyStrip (s : String) : String := ⟨dropEnds isPyWs s.toList⟩

/-- Python `str.strip(chars)`: remove all leading and trailing characters of `cs`. -/
def pyStripChars (cs : List Char) (s : String) : String :=
  ⟨dropEnds (fun c => decide (c ∈ cs)) s.toList⟩

/-- Substring test on character lists (Python `pat in s`). -/
def listContains (pat : List Char) : List Char → Bool
  | [] => pat.isEmpty
  | c :: rest => pat.isPrefixOf (c :: rest) || listContains pat rest

/-- Python `pat in s` for strings. -/
def strContains (s pat : String) : Bool := listContains pat.toList s.toList

/-- Worker for `strReplace`; the fuel argument makes the recursion structural and
is always initialised with the length of the subject list. -/
def replaceListAux (pat rep : List Char) : Nat → List Char → List Char
  | 0, l => l
  | _, [] => []
  | fuel + 1, c :: rest =>
    if pat ≠ [] ∧ pat.isPrefixOf (c :: rest) then
      rep ++ replaceListAux pat rep fuel ((c :: rest).drop pat.length)
    else
      c :: replaceListAux pat rep fuel rest

/-- Python `str.replace`: replace all non-overlapping occurrences, left to right. -/
def strReplace (s pat rep : String) : String :=
  ⟨replaceListAux pat.toList rep.toList s.toList.length s.toList⟩

/-- The double-quote character. -/
def quoteChar : Char := Char.ofNat 34

/-- The single-quote character. -/
def squoteChar : Char := Char.ofNat 39

/-- The backslash character. -/
def backslashChar : Char := Char.ofNat 92

/-- Python truthiness of an optional string (`None` and `""` are falsy). -/
def optTruthy (o : Option String) : Bool :=
  match o with
  | some s => s ≠ ""
  | none => false

/-! ## InputValidator: TrainValidationTool (src/tools.py, lines 27-120) -/

namespace TrainValidationTool

/-- Result dictionary produced by `TrainValidationTool._run`. -/
structure ValidationResult where
  valid : Bool
  error : Option String
  train_number : Option String
  date : Option String
  message : Option String
deriving DecidableEq, Repr

/-- Model of `TrainValidationTool._format_error`. -/
def format_error (msg : String) : ValidationResult :=
  { valid := false, error := some msg, train_number := none, date := none, message := none }

/-- Success payload built at lines 69-75 of src/tools.py. -/
def success (tn d : String) : ValidationResult :=
  { valid := true, error := none, train_number := some tn, date := some d,
    message := some ("Train " ++ tn ++ " validated successfully for " ++ d) }

/-- Model of `re.match(r'^[0-9]{5}$', t)` on an already-stripped string:
exactly five ASCII digits.  (On strings without a trailing newline — guaranteed
after `str.strip()` — the anchored regex is equivalent to this check.) -/
def matchesTrainPattern (t : String) : Bool :=
  t.length == 5 && t.toList.all Char.isDigit

/-- Model of `TrainValidationTool._run`.  `parseDate` stands for
`datetime.strptime(d, "%Y-%m-%d").date()` returning a day ordinal (`none` models
a `ValueError`); `today` is `datetime.now().date()` as a day ordinal and
`todayStr` its `%Y-%m-%d` rendering.  The `date` argument is checked with
Python truthiness, so an empty string behaves like an absent date. -/
def run (train_number : String) (date : Option String)
    (parseDate : String → Option Int) (today : Int) (todayStr : String) :
    ValidationResult :=
  let tn := pyStrip train_number
  if !matchesTrainPattern tn then
    format_error "Train number must be exactly 5 digits"
  else
    match date with
    | some d0 =>
      if d0 = "" then
        success tn todayStr
      else
        let d := pyStrip d0
        match parseDate d with
        | none => format_error "Invalid date format. Use YYYY-MM-DD"
        | some x =>
          if x < today then format_error "Date cannot be in the past"
          else if x > today + 120 then
            format_error "Date cannot be more than 120 days in the future"
          else success tn d
    | none => success tn todayStr

end TrainValidationTool

/-! ## Crew-level input sanitization (src/crew.py, lines 76-110) -/

namespace RailwayCrew

/-- String consisting of a backslash followed by a double quote. -/
def escapedDq : String := ⟨[backslashChar, quoteChar]⟩

/-- String consisting of a single double-quote character. -/
def dqStr : String := ⟨[quoteChar]⟩

/-- String consisting of a backslash followed by a single quote. -/
def escapedSq : String := ⟨[backslashChar, squoteChar]⟩

/-- String consisting of a single single-quote character. -/
def sqStr : String := ⟨[squoteChar]⟩

/-- Model of `TrainStatusCrew._sanitize_input`: strip whitespace, then all
surrounding double quotes, then all surrounding single quotes, then unescape
backslash-escaped double and single quotes. -/
def sanitize_input (v : String) : String :=
  let cleaned := pyStripChars [squoteChar] (pyStripChars [quoteChar] (pyStrip v))
  strReplace (strReplace cleaned escapedDq dqStr) escapedSq sqStr

/-- Model of `TrainStatusCrew._validate_train_number`.  Python `str.isdigit` is
modelled on ASCII digits (it additionally accepts some non-ASCII digit
characters, which no claim exercises). -/
def validate_train_number (train_number : String) : Except String String :=
  if train_number = "" then .error "Train number is required"
  else
    let clean := sanitize_input train_number
    if !(!clean.isEmpty && clean.toList.all Char.isDigit) then
      .error "Train number must contain only digits"
    else if clean.length ≠ 5 then .error "Train number must be exactly 5 digits"
    else .ok clean

end RailwayCrew

/-! ## StatusFetcher: RailwayAPITool (src/tools.py, lines 151-347) -/

namespace RailwayAPITool

/-- Raw status record assembled by the fetcher (the JSON dictionary of
`_extract_train_info` / `_get_mock_data`, plus the `source` annotation key that
`_run` adds on its return paths).  Timestamps are epoch seconds. -/
structure TrainRecord where
  train_number : String
  train_name : String
  current_station : String
  current_lat : ℚ
  current_lon : ℚ
  scheduled_arrival : Option Int := none
  actual_arrival : Option Int := none
  upcoming_stations : List String := []
  last_updated : Int
  data_source : String
  note : Option String := none
  source : Option String := none
deriving DecidableEq, Repr

/-- One organic web-search result (`{title, snippet}`). -/
structure SearchResult where
  title : String
  snippet : String
deriving DecidableEq, Repr

/-- Oracles for the two `re.search` extractions inside `_extract_train_info`:
`stationOf` models the station pattern (group 1) on a lowercased snippet and
`delayOf` models the delay pattern (`int(group(1))`). -/
structure RegexOracles where
  stationOf : String → Option String
  delayOf : String → Option Nat

/-- Pseudo-random draws consumed by `_get_mock_data`: `random.choice`,
`random.randint(0, 45)`, two `random.uniform` draws and `random.sample`. -/
structure MockRand where
  station : String
  delay : Nat
  lat : ℚ
  lon : ℚ
  upcoming : List String
deriving DecidableEq, Repr

/-- The class-level cache: key to (record, insertion time). -/
abbrev Cache := List (String × TrainRecord × Int)

/-- Ambient state of one `_run` call: the shared cache, the clock (both
`time.time()` and `datetime.now()`), the outcome of `SerperDevTool()._run`
(`Except.error` models any raised exception) and the random draws. -/
structure ApiState where
  cache : Cache
  now : Int
  search : Except String (List SearchResult)
  rand : MockRand
  oracles : RegexOracles

/-- The fixed reference station list of `_get_mock_data`. -/
def mock_stations : List String :=
  ["New Delhi", "Mumbai Central", "Chennai Central", "Kolkata",
   "Bangalore City", "Hyderabad", "Pune", "Ahmedabad", "Jaipur",
   "Lucknow", "Kanpur", "Nagpur", "Bhopal", "Indore", "Surat"]

/-- Model of `RailwayAPITool._get_mock_data`.  (The unused `date` parameter of
the Python function is omitted; it does not influence the result.) -/
def get_mock_data (train_number : String) (now : Int) (r : MockRand)
    (error_context : String) : TrainRecord :=
  { train_number := train_number,
    train_name := "Express Train " ++ train_number,
    current_station := r.station,
    current_lat := r.lat,
    current_lon := r.lon,
    scheduled_arrival := some now,
    actual_arrival := some (now + 60 * (r.delay : Int)),
    upcoming_stations := r.upcoming,
    last_updated := now,
    data_source := "mock_data",
    note := some (if error_context = "" then "Using mock data for demonstration"
                  else "Using mock data - " ++ error_context) }

/-- The status keywords scanned for in snippets. -/
def status_keywords : List String :=
  ["running", "departed", "arrived", "delayed", "on time"]

/-- One iteration of the result loop of `_extract_train_info` (lines 287-314). -/
def extract_step (tn : String) (now : Int) (orc : RegexOracles)
    (info : TrainRecord) (r : SearchResult) : TrainRecord :=
  let title := r.title.toLower
  let snippet := r.snippet.toLower
  let info :=
    if strContains title tn && strContains title "train" then
      { info with train_name := pyStrip (strReplace r.title tn "") }
    else info
  if status_keywords.any (fun k => strContains snippet k) then
    let info :=
      match orc.stationOf snippet with
      | some st => { info with current_station := pyStrip st }
      | none => info
    match orc.delayOf snippet with
    | some n =>
      let d : Nat := if strContains snippet "hr" || strContains snippet "hour" then n * 60 else n
      { info with scheduled_arrival := some now, actual_arrival := some (now + 60 * (d : Int)) }
    | none => info
  else info

/-- Model of `RailwayAPITool._extract_train_info`: the initial record is
folded through the first five organic results. -/
def extract_train_info (results : List SearchResult) (tn : String) (now : Int)
    (orc : RegexOracles) : TrainRecord :=
  (results.take 5).foldl (extract_step tn now orc)
    { train_number := tn,
      train_name := "Train " ++ tn,
      current_station := "Information not available",
      current_lat := 0,
      current_lon := 0,
      scheduled_arrival := none,
      actual_arrival := none,
      upcoming_stations := [],
      last_updated := now,
      data_source := "web_search" }

/-- Return value of `_run`: either an error dictionary or a status record. -/
inductive ApiOutput
  | errorOut (msg : String)
  | record (r : TrainRecord)
deriving DecidableEq, Repr

/-- Input dictionary after JSON decoding (the keys `_run` inspects). -/
structure ParsedDict where
  valid : Option Bool := none
  error : Option String := none
  train_number : Option String := none
  date : Option String := none
deriving DecidableEq, Repr

/-- Outcome of the defensive JSON-parsing preamble (lines 160-193): either one
of the early error returns, or a decoded dictionary. -/
inductive ParseOutcome
  | parseFailure (msg : String)
  | parsed (d : ParsedDict)
deriving DecidableEq, Repr

/-- Python `date or 'today'` for the cache key (lines 215). -/
def pyOrToday (o : Option String) : String :=
  match o with
  | some s => if s = "" then "today" else s
  | none => "today"

/-- The cache key `f"{train_number}_{date or 'today'}"`. -/
def cacheKey (tn : String) (date : Option String) : String :=
  tn ++ "_" ++ pyOrToday date

/-- The live branch of `_run` (lines 224-247): on search success the extracted
record is cached and returned annotated with `source="web_search"`; the cache
write at line 239 stores the same dictionary object that is annotated at line
240, so the cached record carries the annotation too.  On a search failure a
mock record is returned without touching the cache. -/
def liveFetch (train_number : String) (cache_key : String) (st : ApiState) :
    ApiOutput × Cache :=
  match st.search with
  | .ok results =>
    let out := { extract_train_info results train_number st.now st.oracles with
                 source := some "web_search" }
    (.record out, (cache_key, out, st.now) :: st.cache)
  | .error e =>
    (.record (get_mock_data train_number st.now st.rand ("Search failed: " ++ e)), st.cache)

/-- Model of `re.match(r'^[0-9]{5}$', t)` on an arbitrary (possibly
unstripped) string, as used at line 212: Python's `$` anchor matches at the
end of the string or just before a single trailing newline, so the regex
accepts exactly five ASCII digits, optionally followed by one `'\n'`. -/
def matchesTrainRegex (t : String) : Bool :=
  TrainValidationTool.matchesTrainPattern t ||
    (t.length == 6 && (t.toList.take 5).all Char.isDigit &&
      t.toList.getLast? == some '\n')

/-- Lines 208-247 of `_run`: empty/malformed train-number guards, cache lookup
with 300-second freshness, then the live branch.  On a fresh hit the cached
dictionary itself is annotated with `source="cache"` (in-place mutation in
Python, hence the cache update).  Inserting at the head of the association list
models Python dictionary assignment (lookup takes the newest binding). -/
def fetchTrain (train_number : String) (date : Option String) (st : ApiState) :
    ApiOutput × Cache :=
  if train_number = "" then (.errorOut "Train number is required", st.cache)
  else if !matchesTrainRegex train_number then
    (.errorOut "Invalid train number format - must be 5 digits", st.cache)
  else
    let key := cacheKey train_number date
    match st.cache.lookup key with
    | some (cached, t) =>
      if st.now - t < 300 then
        let hit := { cached with source := some "cache" }
        (.record hit, (key, hit, t) :: st.cache)
      else liveFetch train_number key st
    | none => liveFetch train_number key st

/-- Lines 196-213 of `_run`: dispatch on the `valid` key.  When `valid` is
present and falsy the stored (or default) error message is returned at once;
when it is present and truthy the train number is taken verbatim; when absent
the train number is stripped. -/
def runParsed (d : ParsedDict) (st : ApiState) : ApiOutput × Cache :=
  match d.valid with
  | some v =>
    if !v then (.errorOut (d.error.getD "Invalid input from validation"), st.cache)
    else fetchTrain (d.train_number.getD "") d.date st
  | none => fetchTrain (pyStrip (d.train_number.getD "")) d.date st

/-- Model of `RailwayAPITool._run`, from the decoded input onward. -/
def run (p : ParseOutcome) (st : ApiState) : ApiOutput × Cache :=
  match p with
  | .parseFailure msg => (.errorOut msg, st.cache)
  | .parsed d => runParsed d st

/-- Characterization of the inputs on which `run` produces an error dictionary
(used to state the corrected version of the error contract): a parse failure,
a failed validation flag, a missing/empty train number, or a train number
rejected by the 5-digit regex (which also accepts one trailing newline on the
verbatim `valid=true` train number). -/
def effTrain (d : ParsedDict) : String :=
  match d.valid with
  | some _ => d.train_number.getD ""
  | none => pyStrip (d.train_number.getD "")

/-- The input conditions under which `run` returns an error dictionary. -/
def inputErr (p : ParseOutcome) : Prop :=
  match p with
  | .parseFailure _ => True
  | .parsed d =>
    d.valid = some false ∨ effTrain d = "" ∨
      matchesTrainRegex (effTrain d) = false

end RailwayAPITool

/-! ## GeoCalculator: GeospatialTool (src/tools.py, lines 350-488) -/

namespace GeospatialTool

/-- Model of `math.radians`. -/
noncomputable def radians (x : ℝ) : ℝ := x * (Real.pi / 180)

/-- Model of `GeospatialTool._haversine_distance` over the reals. -/
noncomputable def haversine_distance (lat1 lon1 lat2 lon2 : ℝ) : ℝ :=
  let la1 := radians lat1
  let lo1 := radians lon1
  let la2 := radians lat2
  let lo2 := radians lon2
  let dlat := la2 - la1
  let dlon := lo2 - lo1
  let a := Real.sin (dlat / 2) ^ 2 +
    Real.cos la1 * Real.cos la2 * Real.sin (dlon / 2) ^ 2
  let c := 2 * Real.arcsin (Real.sqrt a)
  6371 * c

end GeospatialTool

/-! ## StatusNormalizer: DataProcessingTool (src/tools.py, lines 491-641) -/

namespace DataProcessingTool

/-- Decoded input dictionary of `DataProcessingTool._run` (the keys it reads). -/
structure RawDict where
  error : Option String := none
  train_number : Option String := none
  train_name : Option String := none
  current_station : Option String := none
  current_lat : Option ℚ := none
  current_lon : Option ℚ := none
  scheduled_arrival : Option String := none
  actual_arrival : Option String := none
  upcoming_stations : Option (List String) := none
  last_updated : Option String := none
  data_source : Option String := none
  note : Option String := none
deriving DecidableEq, Repr

/-- Python `round(q, 1)` over `ℚ`.  Python rounds half to even; on every value
this development applies it to, `q * 10` is an integer, so no tie is possible
and half-up rounding coincides with Python. -/
def pyRound1 (q : ℚ) : ℚ := (round (q * 10) : ℚ) / 10

/-- Model of `DataProcessingTool._calculate_reliability_score`. -/
def calculate_reliability_score (raw : RawDict) (delay_minutes : Int) : ℚ :=
  let score : ℚ := 100
  let score := if delay_minutes > 0 then score - min ((delay_minutes : ℚ) * (1 / 2)) 30 else score
  let score := if raw.data_source = some "mock_data" then score - 20 else score
  let score := if raw.current_station = some "Information not available" then score - 15
               else score
  max 0 (min 100 (pyRound1 score))

/-- Model of `DataProcessingTool._format_delay_text` (Python floor division
and floor modulus). -/
def format_delay_text (d : Int) : String :=
  if d ≤ 0 then "On time"
  else if d < 60 then toString d ++ " minutes late"
  else
    let hours := Int.fdiv d 60
    let minutes := Int.fmod d 60
    if minutes = 0 then
      toString hours ++ " hour" ++ (if hours > 1 then "s" else "") ++ " late"
    else toString hours ++ "h " ++ toString minutes ++ "m late"

/-- Canonical status record built by `DataProcessingTool._run` (the
`processed_data` dictionary, flattened). -/
structure ProcessedData where
  number : String
  name : String
  category : String
  emoji : String
  delay_minutes : Int
  delay_text : String
  station : String
  lat : ℚ
  lon : ℚ
  next_stations : List String
  scheduled_arrival : Option String
  actual_arrival : Option String
  last_updated : String
  reliability_score : ℚ
  data_source : String
  processed_at : String
  note : Option String
deriving DecidableEq, Repr

/-- Model of `DataProcessingTool._run`, from the decoded dictionary onward.
`parseTs` stands for `datetime.fromisoformat(x.replace('Z', '+00:00'))`
returning epoch seconds (`none` models a raised exception, which the code turns
into delay 0 and the "Status Unknown" category); `nowIso` stands for
`datetime.now().isoformat()`.  An input dictionary carrying an `error` key is
passed through as an error (`processed=false` in the JSON output). -/
def process (raw : RawDict) (parseTs : String → Option Int) (nowIso : String) :
    Except String ProcessedData :=
  match raw.error with
  | some e => .error e
  | none =>
    let train_number := raw.train_number.getD "Unknown"
    let train_name := raw.train_name.getD ("Train " ++ train_number)
    let current_station := raw.current_station.getD "Unknown Location"
    let dce : Int × String × String :=
      if optTruthy raw.scheduled_arrival && optTruthy raw.actual_arrival then
        match parseTs (raw.scheduled_arrival.getD ""), parseTs (raw.actual_arrival.getD "") with
        | some s, some a =>
          let d := Int.tdiv (a - s) 60
          if d ≤ 0 then (d, "On Time", "✅")
          else if d ≤ 15 then (d, "Slightly Delayed", "🟡")
          else if d ≤ 60 then (d, "Delayed", "🟠")
          else (d, "Significantly Delayed", "🔴")
        | _, _ => (0, "Status Unknown", "❓")
      else (0, "Unknown", "🔍")
    let upcoming := raw.upcoming_stations.getD []
    .ok {
      number := train_number,
      name := train_name,
      category := dce.2.1,
      emoji := dce.2.2,
      delay_minutes := dce.1,
      delay_text := format_delay_text dce.1,
      station := current_station,
      lat := raw.current_lat.getD 0,
      lon := raw.current_lon.getD 0,
      next_stations := upcoming.take 3,
      scheduled_arrival := raw.scheduled_arrival,
      actual_arrival := raw.actual_arrival,
      last_updated := raw.last_updated.getD nowIso,
      reliability_score := calculate_reliability_score raw dce.1,
      data_source := raw.data_source.getD "unknown",
      processed_at := nowIso,
      note := if optTruthy raw.note then raw.note else none }

/-- Status category thresholds exactly as the specification words them:
`delay ≤ 0` On Time, `1..15` Slightly Delayed, `16..60` Delayed, above 60
Significantly Delayed. -/
def spec_category (d : Int) : String :=
  if d ≤ 0 then "On Time"
  else if 1 ≤ d ∧ d ≤ 15 then "Slightly Delayed"
  else if 16 ≤ d ∧ d ≤ 60 then "Delayed"
  else "Significantly Delayed"

/-- Reliability score exactly as the specification words it: start at 100,
subtract `min(delay × 0.5, 30)` when the delay is positive, 20 for a mock
source, 15 for an unknown station, clamp to `[0, 100]`, round to one decimal. -/
def spec_reliability (delay : Int) (data_source current_station : Option String) : ℚ :=
  let deduction : ℚ :=
    (if delay > 0 then min ((delay : ℚ) * (1 / 2)) 30 else 0) +
    (if data_source = some "mock_data" then 20 else 0) +
    (if current_station = some "Information not available" then 15 else 0)
  pyRound1 (max 0 (min 100 (100 - deduction)))

/-- The delay deduction term of the reliability score, factored out for the
score analysis. -/
def delayDeduction (d : Int) : ℚ :=
  if 0 < d then min ((d : ℚ) * (1 / 2)) 30 else 0

/-- The reliability score before rounding and clamping. -/
def baseScore (raw : RawDict) (d : Int) : ℚ :=
  100 - delayDeduction d -
    (if raw.data_source = some "mock_data" then 20 else 0) -
    (if raw.current_station = some "Information not available" then 15 else 0)

end DataProcessingTool

/-! ## Concrete fixtures used by witnesses and counterexamples -/

/-- Timestamp oracle sending "S" to 0 and "A" to 90 epoch seconds. -/
def tsOracle : String → Option Int :=
  fun s => if s = "S" then some 0 else if s = "A" then some 90 else none

/-- Raw record whose two arrival timestamps parse to 0 and 90 seconds. -/
def rawSA : DataProcessingTool.RawDict :=
  { scheduled_arrival := some "S", actual_arrival := some "A" }

/-- Raw record whose actual-arrival timestamp fails to parse. -/
def rawBad : DataProcessingTool.RawDict :=
  { scheduled_arrival := some "S", actual_arrival := some "B" }

/-- A mock-source raw record. -/
def rawMock : DataProcessingTool.RawDict :=
  { data_source := some "mock_data" }

/-- Fixed random draws for the fetcher fixtures. -/
def mockRand0 : RailwayAPITool.MockRand :=
  { station := "New Delhi", delay := 5, lat := 20, lon := 77,
    upcoming := ["Pune", "Surat", "Jaipur"] }

/-- Regex oracles that never match. -/
def noOracles : RailwayAPITool.RegexOracles :=
  { stationOf := fun _ => none, delayOf := fun _ => none }

/-- Fetcher state with an empty cache and a failing live source. -/
def stFail : RailwayAPITool.ApiState :=
  { cache := [], now := 0, search := .error "boom", rand := mockRand0, oracles := noOracles }

/-- Fetcher state with an empty cache and a succeeding live source that
returns no organic results. -/
def stOk : RailwayAPITool.ApiState :=
  { cache := [], now := 0, search := .ok [], rand := mockRand0, oracles := noOracles }

/-- A cached raw record whose `data_source` is `web_search`. -/
def recWeb : RailwayAPITool.TrainRecord :=
  { train_number := "12345", train_name := "Train 12345", current_station := "Kanpur",
    current_lat := 0, current_lon := 0, last_updated := 0, data_source := "web_search" }

/-- Fetcher state holding a 10-second-old cache entry for train 12345. -/
def stHit : RailwayAPITool.ApiState :=
  { cache := [("12345_today", recWeb, 0)], now := 10, search := .error "down",
    rand := mockRand0, oracles := noOracles }

/-- Validated-input dictionary for train 12345 with no date. -/
def dictOk : RailwayAPITool.ParsedDict :=
  { valid := some true, train_number := some "12345" }

/-- Failed-validation input dictionary. -/
def dictBad : RailwayAPITool.ParsedDict :=
  { valid := some false, error := some "bad input" }

/-! ## General lemmas -/

/-- Boolean-to-propositional reading of the train-number pattern. -/
lemma matchesTrainPattern_iff (t : String) :
    TrainValidationTool.matchesTrainPattern t = true ↔
      (t.length = 5 ∧ ∀ c ∈ t.toList, c.isDigit = true) := by
  simp [TrainValidationTool.matchesTrainPattern, List.all_eq_true]

/-- A list whose head does not satisfy `p` survives `dropWhile p`. -/
lemma dropWhile_head_eq_self (p : Char → Bool) (l : List Char)
    (h : ∀ c ∈ l.head?, p c = false) : l.dropWhile p = l := by
  cases l with
  | nil => rfl
  | cons c rest =>
    have hc : p c = false := h c rfl
    simp [List.dropWhile_cons, hc]

/-- A list whose two ends do not satisfy `p` survives `dropEnds p`. -/
lemma dropEnds_eq_self (p : Char → Bool) (l : List Char)
    (h1 : ∀ c ∈ l.head?, p c = false) (h2 : ∀ c ∈ l.getLast?, p c = false) :
    dropEnds p l = l := by
  unfold dropEnds
  rw [dropWhile_head_eq_self p l h1,
    dropWhile_head_eq_self p l.reverse (by simpa using h2), List.reverse_reverse]

/-- Replacement of a pattern whose first character does not occur in the
subject is the identity. -/
lemma replaceListAux_not_mem (p : Char) (ps rep : List Char) :
    ∀ (fuel : Nat) (l : List Char), p ∉ l →
      replaceListAux (p :: ps) rep fuel l = l := by
  intro fuel
  induction fuel with
  | zero => intro l _; cases l <;> rfl
  | succ n ih =>
    intro l hl
    cases l with
    | nil => rfl
    | cons c rest =>
      have hc : c ≠ p := by rintro rfl; exact hl (List.mem_cons_self _ _)
      have hpre : ((p :: ps).isPrefixOf (c :: rest)) = false := by
        simp [List.isPrefixOf]
        intro h
        exact absurd h.symm hc
      simp only [replaceListAux]
      rw [if_neg (by simp [hpre])]
      exact congrArg (c :: ·) (ih rest (fun h => hl (List.mem_cons_of_mem _ h)))

/-- String-level version for the quote-unescaping patterns, which both start
with a backslash. -/
lemma strReplace_no_backslash (s pat rep : String) (t : List Char)
    (hpat : pat.toList = backslashChar :: t)
    (h : backslashChar ∉ s.toList) : strReplace s pat rep = s := by
  unfold strReplace
  rw [hpat, replaceListAux_not_mem _ _ _ _ _ h]
  cases s
  rfl

/-- ASCII digits are not Python whitespace and differ from the quote and
backslash characters. -/
lemma digit_char_facts (c : Char) (h : c.isDigit = true) :
    isPyWs c = false ∧ c ≠ quoteChar ∧ c ≠ squoteChar ∧ c ≠ backslashChar := by
  refine ⟨?_, ?_, ?_, ?_⟩
  · by_contra hw
    simp only [Bool.not_eq_false, isPyWs, Bool.or_eq_true, decide_eq_true_eq] at hw
    rcases hw with ((((h1 | h1) | h1) | h1) | h1) | h1 <;> subst h1 <;>
      exact absurd h (by decide)
  · rintro rfl; exact absurd h (by decide)
  · rintro rfl; exact absurd h (by decide)
  · rintro rfl; exact absurd h (by decide)


/-! ## C7: tool-level input validation -/

/-- C7: `TrainValidationTool._run` accepts a train number iff, after stripping,
it consists of exactly 5 ASCII digits (otherwise it rejects with the
train-number-specific message), accepts a provided (truthy) date iff it parses
as `YYYY-MM-DD` and lies in the closed interval from today through today plus
120 days, and defaults the date to today when none is provided. -/
theorem c7_validator_acceptance (tn : String) (date : Option String)
    (parseDate : String → Option Int) (today : Int) (todayStr : String) :
    ((TrainValidationTool.run tn date parseDate today todayStr).valid = true ↔
      (((pyStrip tn).length = 5 ∧ ∀ c ∈ (pyStrip tn).toList, c.isDigit = true) ∧
        ∀ d, date = some d → d ≠ "" →
          ∃ x, parseDate (pyStrip d) = some x ∧ today ≤ x ∧ x ≤ today + 120))
    ∧ ((date = none ∨ date = some "") →
        (TrainValidationTool.run tn date parseDate today todayStr).valid = true →
        (TrainValidationTool.run tn date parseDate today todayStr).date = some todayStr)
    ∧ (¬ ((pyStrip tn).length = 5 ∧ ∀ c ∈ (pyStrip tn).toList, c.isDigit = true) →
        (TrainValidationTool.run tn date parseDate today todayStr).error =
          some "Train number must be exactly 5 digits") := by
  cases hbp : TrainValidationTool.matchesTrainPattern (pyStrip tn) with
  | false =>
    have hprop : ¬ ((pyStrip tn).length = 5 ∧ ∀ c ∈ (pyStrip tn).toList, c.isDigit = true) := by
      rw [← matchesTrainPattern_iff, hbp]; simp
    have hrun : TrainValidationTool.run tn date parseDate today todayStr =
        TrainValidationTool.format_error "Train number must be exactly 5 digits" := by
      unfold TrainValidationTool.run
      dsimp only
      rw [hbp]
      rfl
    refine ⟨?_, ?_, ?_⟩
    · rw [hrun]
      constructor
      · intro h; exact absurd h (by simp [TrainValidationTool.format_error])
      · rintro ⟨h1, -⟩; exact absurd h1 hprop
    · intro _ h
      rw [hrun] at h
      exact absurd h (by simp [TrainValidationTool.format_error])
    · intro _; rw [hrun]; rfl
  | true =>
    have hprop : (pyStrip tn).length = 5 ∧ ∀ c ∈ (pyStrip tn).toList, c.isDigit = true :=
      (matchesTrainPattern_iff _).mp hbp
    cases date with
    | none =>
      have hrun : TrainValidationTool.run tn none parseDate today todayStr =
          TrainValidationTool.success (pyStrip tn) todayStr := by
        unfold TrainValidationTool.run
        dsimp only
        rw [hbp]
        rfl
      refine ⟨?_, ?_, ?_⟩
      · rw [hrun]
        constructor
        · intro _; exact ⟨hprop, fun d hd _ => Option.noConfusion hd⟩
        · intro _; rfl
      · intro _ _; rw [hrun]; rfl
      · intro hc; exact absurd hprop hc
    | some d0 =>
      by_cases hd0 : d0 = ""
      · subst hd0
        have hrun : TrainValidationTool.run tn (some "") parseDate today todayStr =
            TrainValidationTool.success (pyStrip tn) todayStr := by
          unfold TrainValidationTool.run
          dsimp only
          rw [hbp]
          rfl
        refine ⟨?_, ?_, ?_⟩
        · rw [hrun]
          constructor
          · intro _
            refine ⟨hprop, fun d hd hne => ?_⟩
            injection hd with h
            exact absurd h.symm hne
          · intro _; rfl
        · intro _ _; rw [hrun]; rfl
        · intro hc; exact absurd hprop hc
      · have hnotd : ∀ p : Prop, (some d0 = none ∨ some d0 = some "") → p := by
          rintro p (h | h)
          · exact Option.noConfusion h
          · injection h with h; exact absurd h hd0
        cases hp : parseDate (pyStrip d0) with
        | none =>
          have hrun : TrainValidationTool.run tn (some d0) parseDate today todayStr =
              TrainValidationTool.format_error "Invalid date format. Use YYYY-MM-DD" := by
            unfold TrainValidationTool.run
            dsimp only
            rw [hbp, if_neg hd0, hp]
            rfl
          refine ⟨?_, fun h => hnotd _ h, ?_⟩
          · rw [hrun]
            constructor
            · intro h; exact absurd h (by simp [TrainValidationTool.format_error])
            · rintro ⟨-, hall⟩
              obtain ⟨x, hx, -, -⟩ := hall d0 rfl hd0
              rw [hp] at hx
              exact Option.noConfusion hx
          · intro hc; exact absurd hprop hc
        | some x =>
          by_cases hlt : x < today
          · have hrun : TrainValidationTool.run tn (some d0) parseDate today todayStr =
                TrainValidationTool.format_error "Date cannot be in the past" := by
              unfold TrainValidationTool.run
              dsimp only
              rw [hbp, if_neg hd0, hp]
              dsimp only
              rw [if_pos hlt]
              rfl
            refine ⟨?_, fun h => hnotd _ h, ?_⟩
            · rw [hrun]
              constructor
              · intro h; exact absurd h (by simp [TrainValidationTool.format_error])
              · rintro ⟨-, hall⟩
                obtain ⟨x', hx', h1, -⟩ := hall d0 rfl hd0
                rw [hp] at hx'
                injection hx' with hx'
                omega
            · intro hc; exact absurd hprop hc
          · by_cases hgt : x > today + 120
            · have hrun : TrainValidationTool.run tn (some d0) parseDate today todayStr =
                  TrainValidationTool.format_error
                    "Date cannot be more than 120 days in the future" := by
                unfold TrainValidationTool.run
                dsimp only
                rw [hbp, if_neg hd0, hp]
                dsimp only
                rw [if_neg hlt, if_pos hgt]
                rfl
              refine ⟨?_, fun h => hnotd _ h, ?_⟩
              · rw [hrun]
                constructor
                · intro h; exact absurd h (by simp [TrainValidationTool.format_error])
                · rintro ⟨-, hall⟩
                  obtain ⟨x', hx', -, h2⟩ := hall d0 rfl hd0
                  rw [hp] at hx'
                  injection hx' with hx'
                  omega
              · intro hc; exact absurd hprop hc
            · have hrun : TrainValidationTool.run tn (some d0) parseDate today todayStr =
                  TrainValidationTool.success (pyStrip tn) (pyStrip d0) := by
                unfold TrainValidationTool.run
                dsimp only
                rw [hbp, if_neg hd0, hp]
                dsimp only
                rw [if_neg hlt, if_neg hgt]
                rfl
              refine ⟨?_, fun h => hnotd _ h, ?_⟩
              · rw [hrun]
                constructor
                · intro _
                  refine ⟨hprop, fun d hd hne => ?_⟩
                  injection hd with h
                  subst h
                  exact ⟨x, hp, by omega, by omega⟩
                · intro _; rfl
              · intro hc; exact absurd hprop hc

/-- Witness for C7 at a concrete accepted input. -/
theorem c7_validator_acceptance_witness :
    (TrainValidationTool.run "  12345 " (some "2025-01-01")
      (fun s => if s = "2025-01-01" then some 10 else none) 0 "T").valid = true := by
  apply (c7_validator_acceptance "  12345 " (some "2025-01-01")
    (fun s => if s = "2025-01-01" then some 10 else none) 0 "T").1.mpr
  refine ⟨by decide, ?_⟩
  intro d hd hne
  injection hd with h
  subst h
  exact ⟨10, by decide, by decide, by decide⟩

/-! ## C8: crew-level quote stripping -/

/-- Sanitization removes a whitespace-and-double-quote wrap, or a single-quote
wrap, around a 5-digit string. -/
lemma sanitize_wrap_eq (s : String) (h5 : s.length = 5)
    (hd : ∀ c ∈ s.toList, c.isDigit = true) :
    RailwayCrew.sanitize_input ⟨' ' :: quoteChar :: (s.toList ++ [quoteChar, ' '])⟩ = s ∧
    RailwayCrew.sanitize_input ⟨squoteChar :: (s.toList ++ [squoteChar])⟩ = s := by
  obtain ⟨a, b, c, d, e, hl⟩ : ∃ a b c d e, s.toList = [a, b, c, d, e] := by
    have h5' : s.toList.length = 5 := h5
    cases l1 : s.toList with
    | nil => rw [l1] at h5'; simp at h5'
    | cons a t1 =>
      cases t1 with
      | nil => rw [l1] at h5'; simp at h5'
      | cons b t2 =>
        cases t2 with
        | nil => rw [l1] at h5'; simp at h5'
        | cons c t3 =>
          cases t3 with
          | nil => rw [l1] at h5'; simp at h5'
          | cons d t4 =>
            cases t4 with
            | nil => rw [l1] at h5'; simp at h5'
            | cons e t5 =>
              cases t5 with
              | nil => exact ⟨a, b, c, d, e, rfl⟩
              | cons f t6 => rw [l1] at h5'; simp at h5'
  have hs : s = ⟨[a, b, c, d, e]⟩ := String.ext hl
  have ha := digit_char_facts a (hd a (by rw [hl]; simp))
  have hb := digit_char_facts b (hd b (by rw [hl]; simp))
  have hc := digit_char_facts c (hd c (by rw [hl]; simp))
  have hd4 := digit_char_facts d (hd d (by rw [hl]; simp))
  have he := digit_char_facts e (hd e (by rw [hl]; simp))
  have cqa : (a = quoteChar) = False := eq_false ha.2.1
  have cqb : (b = quoteChar) = False := eq_false hb.2.1
  have cqc : (c = quoteChar) = False := eq_false hc.2.1
  have cqd : (d = quoteChar) = False := eq_false hd4.2.1
  have cqe : (e = quoteChar) = False := eq_false he.2.1
  have csa : (a = squoteChar) = False := eq_false ha.2.2.1
  have csb : (b = squoteChar) = False := eq_false hb.2.2.1
  have csc : (c = squoteChar) = False := eq_false hc.2.2.1
  have csd : (d = squoteChar) = False := eq_false hd4.2.2.1
  have cse : (e = squoteChar) = False := eq_false he.2.2.1
  have wsq : (squoteChar = quoteChar) = False := eq_false (by decide)
  have hbs : backslashChar ∉ (⟨[a, b, c, d, e]⟩ : String).toList := by
    intro hmem
    simp only [String.toList, List.mem_cons, List.not_mem_nil, or_false] at hmem
    rcases hmem with h1 | h1 | h1 | h1 | h1
    · exact ha.2.2.2 h1.symm
    · exact hb.2.2.2 h1.symm
    · exact hc.2.2.2 h1.symm
    · exact hd4.2.2.2 h1.symm
    · exact he.2.2.2 h1.symm
  constructor
  · rw [hl]
    have hstr : pyStripChars [squoteChar] (pyStripChars [quoteChar]
        (pyStrip ⟨' ' :: quoteChar :: ([a, b, c, d, e] ++ [quoteChar, ' '])⟩)) =
        ⟨[a, b, c, d, e]⟩ := by
      unfold pyStrip pyStripChars dropEnds
      simp [List.dropWhile_cons, ha.1, hb.1, hc.1, hd4.1, he.1,
        cqa, cqb, cqc, cqd, cqe, csa, csb, csc, csd, cse, wsq,
        (by decide : isPyWs ' ' = true), (by decide : isPyWs quoteChar = false),
        (eq_false (by decide : ¬ (quoteChar = squoteChar)))]
    unfold RailwayCrew.sanitize_input
    dsimp only
    rw [hstr, strReplace_no_backslash _ RailwayCrew.escapedDq RailwayCrew.dqStr [quoteChar] rfl hbs,
      strReplace_no_backslash _ RailwayCrew.escapedSq RailwayCrew.sqStr [squoteChar] rfl hbs, hs]
  · rw [hl]
    have hstr : pyStripChars [squoteChar] (pyStripChars [quoteChar]
        (pyStrip ⟨squoteChar :: ([a, b, c, d, e] ++ [squoteChar])⟩)) =
        ⟨[a, b, c, d, e]⟩ := by
      unfold pyStrip pyStripChars dropEnds
      simp [List.dropWhile_cons, ha.1, hb.1, hc.1, hd4.1, he.1,
        cqa, cqb, cqc, cqd, cqe, csa, csb, csc, csd, cse, wsq,
        (by decide : isPyWs squoteChar = false)]
    unfold RailwayCrew.sanitize_input
    dsimp only
    rw [hstr, strReplace_no_backslash _ RailwayCrew.escapedDq RailwayCrew.dqStr [quoteChar] rfl hbs,
      strReplace_no_backslash _ RailwayCrew.escapedSq RailwayCrew.sqStr [squoteChar] rfl hbs, hs]

/-- C8: before validating, the crew-level validator strips surrounding
whitespace and surrounding quote characters from the raw train number and
unescapes backslash-escaped quote sequences, so a 5-digit train number wrapped
in double quotes (with whitespace) or in single quotes is accepted; the
unescaping step is exhibited on a concrete escaped input. -/
theorem c8_crew_quote_stripping :
    (∀ s : String, s.length = 5 → (∀ c ∈ s.toList, c.isDigit = true) →
      RailwayCrew.validate_train_number
          ⟨' ' :: quoteChar :: (s.toList ++ [quoteChar, ' '])⟩ = .ok s ∧
      RailwayCrew.validate_train_number
          ⟨squoteChar :: (s.toList ++ [squoteChar])⟩ = .ok s)
    ∧ RailwayCrew.sanitize_input ⟨[backslashChar, quoteChar, '1', '2', '3', '4', '5']⟩ =
        ⟨[quoteChar, '1', '2', '3', '4', '5']⟩ := by
  constructor
  · intro s h5 hd
    obtain ⟨hw1, hw2⟩ := sanitize_wrap_eq s h5 hd
    have hsne : s ≠ "" := by
      intro h
      rw [h] at h5
      exact absurd h5 (by decide)
    have hemp : s.isEmpty = false := by
      rw [Bool.eq_false_iff]
      intro h
      exact hsne ((String.isEmpty_iff _).mp h)
    have hall : s.toList.all Char.isDigit = true := List.all_eq_true.mpr hd
    constructor
    · unfold RailwayCrew.validate_train_number
      rw [if_neg (by simp [String.ext_iff])]
      dsimp only
      rw [hw1, hemp, hall, if_neg (by decide), if_neg (by simp [h5])]
    · unfold RailwayCrew.validate_train_number
      rw [if_neg (by simp [String.ext_iff])]
      dsimp only
      rw [hw2, hemp, hall, if_neg (by decide), if_neg (by simp [h5])]
  · decide

/-- Witness for C8 at the concrete train number 12345. -/
theorem c8_crew_quote_stripping_witness :
    RailwayCrew.validate_train_number
        ⟨' ' :: quoteChar :: (("12345" : String).toList ++ [quoteChar, ' '])⟩ =
      .ok "12345" :=
  (c8_crew_quote_stripping.1 "12345" (by decide) (by decide)).1

/-! ## Reliability score analysis (C6, C10) -/

open DataProcessingTool

/-- Rounding to one decimal is the identity on half-integers. -/
lemma pyRound1_half (k : Int) : pyRound1 ((k : ℚ) / 2) = (k : ℚ) / 2 := by
  unfold pyRound1
  have h : ((k : ℚ) / 2) * 10 = ((5 * k : Int) : ℚ) := by push_cast; ring
  rw [h, round_intCast]
  push_cast
  ring

/-- The unclamped reliability score is a half-integer. -/
lemma baseScore_eq_half (raw : RawDict) (d : Int) :
    ∃ k : Int, baseScore raw d = (k : ℚ) / 2 := by
  unfold baseScore delayDeduction
  by_cases h1 : 0 < d
  · rcases le_total ((d : ℚ) * (1 / 2)) 30 with h | h
    · rw [if_pos h1, min_eq_left h]
      split_ifs with h2 h3 h3
      · exact ⟨200 - d - 40 - 30, by push_cast; ring⟩
      · exact ⟨200 - d - 40, by push_cast; ring⟩
      · exact ⟨200 - d - 30, by push_cast; ring⟩
      · exact ⟨200 - d, by push_cast; ring⟩
    · rw [if_pos h1, min_eq_right h]
      split_ifs with h2 h3 h3
      · exact ⟨140 - 40 - 30, by push_cast; ring⟩
      · exact ⟨140 - 40, by push_cast; ring⟩
      · exact ⟨140 - 30, by push_cast; ring⟩
      · exact ⟨140, by push_cast; ring⟩
  · rw [if_neg h1]
    split_ifs with h2 h3 h3
    · exact ⟨200 - 40 - 30, by push_cast; ring⟩
    · exact ⟨200 - 40, by push_cast; ring⟩
    · exact ⟨200 - 30, by push_cast; ring⟩
    · exact ⟨200, by push_cast; ring⟩

/-- The delay deduction lies in `[0, 30]`. -/
lemma delayDeduction_bounds (d : Int) :
    0 ≤ delayDeduction d ∧ delayDeduction d ≤ 30 := by
  unfold delayDeduction
  split_ifs with h1
  · constructor
    · apply le_min
      · have : (0 : ℚ) ≤ (d : ℚ) := by exact_mod_cast le_of_lt h1
        linarith
      · norm_num
    · exact min_le_right _ _
  · norm_num

/-- The unclamped reliability score lies in `[35, 100]`. -/
lemma baseScore_bounds (raw : RawDict) (d : Int) :
    35 ≤ baseScore raw d ∧ baseScore raw d ≤ 100 := by
  obtain ⟨hd0, hd30⟩ := delayDeduction_bounds d
  unfold baseScore
  constructor <;> split_ifs <;> linarith

/-- The implemented reliability score equals the unclamped score: the rounding
is the identity and the clamps never bind. -/
lemma calc_eq_base (raw : RawDict) (d : Int) :
    calculate_reliability_score raw d = baseScore raw d := by
  have harg : ∀ q r : ℚ, q = r →
      max 0 (min 100 (pyRound1 q)) = max 0 (min 100 (pyRound1 r)) := by
    intro q r h; rw [h]
  have hE : calculate_reliability_score raw d =
      max 0 (min 100 (pyRound1 (baseScore raw d))) := by
    unfold calculate_reliability_score baseScore delayDeduction
    dsimp only
    split_ifs <;> exact harg _ _ (by ring)
  obtain ⟨k, hk⟩ := baseScore_eq_half raw d
  obtain ⟨h35, h100⟩ := baseScore_bounds raw d
  rw [hE, hk, pyRound1_half, ← hk, min_eq_right h100, max_eq_right (by linarith)]

/-- The specification formula also equals the unclamped score. -/
lemma spec_eq_base (raw : RawDict) (d : Int) :
    spec_reliability d raw.data_source raw.current_station = baseScore raw d := by
  have harg : ∀ q r : ℚ, q = r →
      pyRound1 (max 0 (min 100 q)) = pyRound1 (max 0 (min 100 r)) := by
    intro q r h; rw [h]
  have hE : spec_reliability d raw.data_source raw.current_station =
      pyRound1 (max 0 (min 100 (baseScore raw d))) := by
    unfold spec_reliability baseScore delayDeduction
    dsimp only
    split_ifs <;> exact harg _ _ (by ring)
  obtain ⟨k, hk⟩ := baseScore_eq_half raw d
  obtain ⟨h35, h100⟩ := baseScore_bounds raw d
  rw [hE, min_eq_right h100, max_eq_right (by linarith), hk, pyRound1_half]

/-- C6: the reliability score equals the specification formula (100 minus the
capped delay deduction, minus 20 for a mock source, minus 15 for an unknown
station, clamped and rounded to one decimal), it depends only on
`(delay_minutes, data_source, current_station)`, and it is monotonically
non-increasing in the delay for fixed other fields. -/
theorem c6_reliability_formula (raw : RawDict) (d dd : Int) :
    (calculate_reliability_score raw d =
      spec_reliability d raw.data_source raw.current_station)
    ∧ (∀ raw2 : RawDict, raw2.data_source = raw.data_source →
        raw2.current_station = raw.current_station →
        calculate_reliability_score raw2 d = calculate_reliability_score raw d)
    ∧ (d ≤ dd →
        calculate_reliability_score raw dd ≤ calculate_reliability_score raw d) := by
  refine ⟨?_, ?_, ?_⟩
  · rw [calc_eq_base, spec_eq_base]
  · intro raw2 h1 h2
    rw [calc_eq_base, calc_eq_base]
    unfold baseScore
    rw [h1, h2]
  · intro hdd
    rw [calc_eq_base, calc_eq_base]
    have hmono : delayDeduction d ≤ delayDeduction dd := by
      unfold delayDeduction
      split_ifs with p1 p2 p2
      · apply min_le_min _ le_rfl
        have : (d : ℚ) ≤ (dd : ℚ) := by exact_mod_cast hdd
        linarith
      · exact absurd (lt_of_lt_of_le p1 hdd) p2
      · apply le_min
        · have : (0 : ℚ) ≤ (dd : ℚ) := by exact_mod_cast le_of_lt p2
          linarith
        · norm_num
      · exact le_rfl
    unfold baseScore
    split_ifs <;> linarith

/-- Witness for C6: monotonicity at delays 3 and 5 on a mock record. -/
theorem c6_reliability_formula_witness :
    calculate_reliability_score rawMock 5 ≤ calculate_reliability_score rawMock 3 :=
  (c6_reliability_formula rawMock 3 5).2.2 (by decide)

/-- C10: the reliability score is always at least 35 (so the clamp floor of 0
is unreachable), and on mock-source records it is at most 80. -/
theorem c10_reliability_bounds (raw : RawDict) (d : Int) :
    35 ≤ calculate_reliability_score raw d ∧
    (raw.data_source = some "mock_data" →
      calculate_reliability_score raw d ≤ 80) := by
  obtain ⟨h35, h100⟩ := baseScore_bounds raw d
  rw [calc_eq_base]
  refine ⟨h35, ?_⟩
  intro hm
  obtain ⟨hd0, -⟩ := delayDeduction_bounds d
  unfold baseScore
  rw [if_pos hm]
  split_ifs <;> linarith

/-- Witness for C10 at a concrete mock record. -/
theorem c10_reliability_bounds_witness :
    calculate_reliability_score rawMock 10 ≤ 80 :=
  (c10_reliability_bounds rawMock 10).2 rfl

/-! ## Delay computation and categories (C4, C5) -/

/-- Evaluation of `process` when both arrival timestamps are present and parse:
produces a record whose delay is the truncated difference and whose category
follows the implemented threshold chain. -/
lemma process_parsed_eq (raw : RawDict) (parseTs : String → Option Int)
    (nowIso sc ac : String) (s a : Int)
    (he : raw.error = none)
    (hsc : raw.scheduled_arrival = some sc) (hsc0 : sc ≠ "")
    (hac : raw.actual_arrival = some ac) (hac0 : ac ≠ "")
    (hp1 : parseTs sc = some s) (hp2 : parseTs ac = some a) :
    ∃ p : ProcessedData, process raw parseTs nowIso = .ok p ∧
      p.delay_minutes = Int.tdiv (a - s) 60 ∧
      p.category = (if Int.tdiv (a - s) 60 ≤ 0 then "On Time"
        else if Int.tdiv (a - s) 60 ≤ 15 then "Slightly Delayed"
        else if Int.tdiv (a - s) 60 ≤ 60 then "Delayed"
        else "Significantly Delayed") := by
  have hopt1 : optTruthy raw.scheduled_arrival = true := by
    rw [hsc]; simp [optTruthy, hsc0]
  have hopt2 : optTruthy raw.actual_arrival = true := by
    rw [hac]; simp [optTruthy, hac0]
  have hget1 : parseTs (raw.scheduled_arrival.getD "") = some s := by rw [hsc]; exact hp1
  have hget2 : parseTs (raw.actual_arrival.getD "") = some a := by rw [hac]; exact hp2
  unfold process
  rw [he]
  dsimp only
  rw [hopt1, hopt2, hget1, hget2]
  refine ⟨_, rfl, ?_, ?_⟩
  · dsimp only
    split_ifs <;> first | rfl | simp_all
  · dsimp only
    split_ifs <;> first | rfl | simp_all

/-- Evaluation of `process` when both timestamps are present but one fails to
parse: delay 0 and the "Status Unknown" category. -/
lemma process_parse_failure_eq (raw : RawDict) (parseTs : String → Option Int)
    (nowIso sc ac : String)
    (he : raw.error = none)
    (hsc : raw.scheduled_arrival = some sc) (hsc0 : sc ≠ "")
    (hac : raw.actual_arrival = some ac) (hac0 : ac ≠ "")
    (hp : parseTs sc = none ∨ parseTs ac = none) :
    ∃ p : ProcessedData, process raw parseTs nowIso = .ok p ∧
      p.delay_minutes = 0 ∧ p.category = "Status Unknown" := by
  have hopt1 : optTruthy raw.scheduled_arrival = true := by
    rw [hsc]; simp [optTruthy, hsc0]
  have hopt2 : optTruthy raw.actual_arrival = true := by
    rw [hac]; simp [optTruthy, hac0]
  unfold process
  rw [he]
  dsimp only
  rw [hopt1, hopt2]
  rcases hp with hp | hp
  · have hget1 : parseTs (raw.scheduled_arrival.getD "") = none := by rw [hsc]; exact hp
    rw [hget1]
    cases hget2 : parseTs (raw.actual_arrival.getD "") with
    | none => exact ⟨_, rfl, rfl, rfl⟩
    | some y => exact ⟨_, rfl, rfl, rfl⟩
  · have hget2 : parseTs (raw.actual_arrival.getD "") = none := by rw [hac]; exact hp
    rw [hget2]
    cases hget1 : parseTs (raw.scheduled_arrival.getD "") with
    | none => exact ⟨_, rfl, rfl, rfl⟩
    | some y => exact ⟨_, rfl, rfl, rfl⟩

/-- C4 (amended): when both arrival timestamps are present and parse, the
delay in minutes is the timestamp difference in seconds divided by 60 and
truncated toward zero (Python `int()`), not rounded to nearest; when either
timestamp is present but fails to parse, the delay is 0 and the category is
the code's "Status Unknown". -/
theorem c4_delay_truncation (raw : RawDict) (parseTs : String → Option Int)
    (nowIso sc ac : String) (s a : Int)
    (he : raw.error = none)
    (hsc : raw.scheduled_arrival = some sc) (hsc0 : sc ≠ "")
    (hac : raw.actual_arrival = some ac) (hac0 : ac ≠ "") :
    (parseTs sc = some s → parseTs ac = some a →
      (process raw parseTs nowIso).toOption.map (·.delay_minutes) =
        some (Int.tdiv (a - s) 60))
    ∧ ((parseTs sc = none ∨ parseTs ac = none) →
      (process raw parseTs nowIso).toOption.map
          (fun q => (q.delay_minutes, q.category)) = some ((0 : Int), "Status Unknown")) := by
  constructor
  · intro hp1 hp2
    obtain ⟨p, hrun, hdel, -⟩ :=
      process_parsed_eq raw parseTs nowIso sc ac s a he hsc hsc0 hac hac0 hp1 hp2
    rw [hrun]
    simp [Except.toOption, hdel]
  · intro hp
    obtain ⟨p, hrun, hdel, hcat⟩ :=
      process_parse_failure_eq raw parseTs nowIso sc ac he hsc hsc0 hac hac0 hp
    rw [hrun]
    simp [Except.toOption, hdel, hcat]

/-- Witness for C4 at the concrete fixture (difference 90 seconds). -/
theorem c4_delay_truncation_witness :
    (process rawSA tsOracle "now").toOption.map (·.delay_minutes) =
      some (Int.tdiv (90 - 0) 60) :=
  (c4_delay_truncation rawSA tsOracle "now" "S" "A" 0 90 rfl rfl (by decide) rfl
    (by decide)).1 rfl rfl

/-- C4 counterexample: with timestamps 90 seconds apart the code yields delay
1 (truncation of 1.5 toward zero), whereas rounding to the nearest integer as
the claim states would yield 2. -/
theorem c4_rounding_counterexample :
    (process rawSA tsOracle "now").toOption.map (·.delay_minutes) = some 1
    ∧ (round ((90 - 0 : ℚ) / 60) : Int) = 2 ∧ (1 : Int) ≠ 2 := by
  refine ⟨rfl, ?_, by decide⟩
  norm_num [round_eq]

/-- C5: with both timestamps parsed, the status category is assigned by the
thresholds delay ≤ 0 On Time, 1–15 Slightly Delayed, 16–60 Delayed, above 60
Significantly Delayed, with the claimed boundary values. -/
theorem c5_category_thresholds :
    (∀ (raw : RawDict) (parseTs : String → Option Int) (nowIso sc ac : String)
        (s a : Int),
      raw.error = none →
      raw.scheduled_arrival = some sc → sc ≠ "" →
      raw.actual_arrival = some ac → ac ≠ "" →
      parseTs sc = some s → parseTs ac = some a →
      (process raw parseTs nowIso).toOption.map (·.category) =
        some (spec_category (Int.tdiv (a - s) 60)))
    ∧ spec_category 0 = "On Time" ∧ spec_category 15 = "Slightly Delayed"
    ∧ spec_category 16 = "Delayed" ∧ spec_category 60 = "Delayed"
    ∧ spec_category 61 = "Significantly Delayed" := by
  have hcat : ∀ d : Int,
      (if d ≤ 0 then "On Time" else if d ≤ 15 then "Slightly Delayed"
        else if d ≤ 60 then "Delayed" else "Significantly Delayed") =
      spec_category d := by
    intro d
    unfold spec_category
    split_ifs <;> first | rfl | omega
  refine ⟨?_, by decide, by decide, by decide, by decide, by decide⟩
  intro raw parseTs nowIso sc ac s a he hsc hsc0 hac hac0 hp1 hp2
  obtain ⟨p, hrun, -, hc⟩ :=
    process_parsed_eq raw parseTs nowIso sc ac s a he hsc hsc0 hac hac0 hp1 hp2
  rw [hrun]
  simp [Except.toOption, hc, hcat]

/-- Witness for C5 at the concrete fixture. -/
theorem c5_category_thresholds_witness :
    (process rawSA tsOracle "now").toOption.map (·.category) =
      some (spec_category (Int.tdiv (90 - 0) 60)) :=
  c5_category_thresholds.1 rawSA tsOracle "now" "S" "A" 0 90 rfl rfl (by decide) rfl
    (by decide) rfl rfl

/-! ## C9: Haversine symmetry -/

/-- C9: for valid coordinates, the Haversine distance is symmetric in its two
points, and the distance from a point to itself is zero. -/
theorem c9_haversine_symm (lat1 lon1 lat2 lon2 : ℝ)
    (h1 : -90 ≤ lat1 ∧ lat1 ≤ 90) (h2 : -180 ≤ lon1 ∧ lon1 ≤ 180)
    (h3 : -90 ≤ lat2 ∧ lat2 ≤ 90) (h4 : -180 ≤ lon2 ∧ lon2 ≤ 180) :
    GeospatialTool.haversine_distance lat1 lon1 lat2 lon2 =
      GeospatialTool.haversine_distance lat2 lon2 lat1 lon1
    ∧ GeospatialTool.haversine_distance lat1 lon1 lat1 lon1 = 0 := by
  constructor
  · unfold GeospatialTool.haversine_distance
    dsimp only
    have e1 : ∀ x y : ℝ, Real.sin ((x - y) / 2) ^ 2 = Real.sin ((y - x) / 2) ^ 2 := by
      intro x y
      rw [show (x - y) / 2 = -((y - x) / 2) by ring, Real.sin_neg]
      ring
    rw [e1 (GeospatialTool.radians lat2) (GeospatialTool.radians lat1),
      e1 (GeospatialTool.radians lon2) (GeospatialTool.radians lon1),
      mul_comm (Real.cos (GeospatialTool.radians lat1)) (Real.cos (GeospatialTool.radians lat2))]
  · unfold GeospatialTool.haversine_distance
    dsimp only
    simp [sub_self, Real.sqrt_zero, Real.arcsin_zero]

/-- Witness for C9 at concrete coordinates. -/
theorem c9_haversine_symm_witness :
    GeospatialTool.haversine_distance 10 20 30 40 =
      GeospatialTool.haversine_distance 30 40 10 20 :=
  (c9_haversine_symm 10 20 30 40 (by norm_num) (by norm_num) (by norm_num)
    (by norm_num)).1

/-! ## StatusFetcher claims (C1, C2, C3) -/

open RailwayAPITool

/-- A string of exactly five digits also satisfies the regex model. -/
lemma matchesTrainRegex_of_pattern (t : String)
    (h : TrainValidationTool.matchesTrainPattern t = true) :
    matchesTrainRegex t = true := by
  simp [matchesTrainRegex, h]

/-- A non-empty train number accepted by the regex never yields an error
dictionary. -/
lemma fetchTrain_not_error (tn : String) (date : Option String) (st : ApiState)
    (h1 : tn ≠ "") (h2 : matchesTrainRegex tn = true) :
    ∃ r, (fetchTrain tn date st).1 = .record r := by
  unfold fetchTrain liveFetch
  rw [if_neg h1, h2]
  dsimp only
  cases hc : st.cache.lookup (cacheKey tn date) with
  | some p =>
    obtain ⟨rec, t⟩ := p
    dsimp only
    by_cases hf : st.now - t < 300
    · exact ⟨{ rec with source := some "cache" }, by rw [if_pos hf]; rfl⟩
    · rw [if_neg hf]
      cases hs : st.search with
      | ok results => exact ⟨_, rfl⟩
      | error e => exact ⟨_, rfl⟩
  | none =>
    cases hs : st.search with
    | ok results => exact ⟨_, rfl⟩
    | error e => exact ⟨_, rfl⟩

/-- Characterization of the error outputs of the fetch body. -/
lemma fetchTrain_error_iff (tn : String) (date : Option String) (st : ApiState) :
    (∃ msg, (fetchTrain tn date st).1 = .errorOut msg) ↔
      (tn = "" ∨ matchesTrainRegex tn = false) := by
  constructor
  · rintro ⟨msg, hmsg⟩
    by_contra hcon
    push_neg at hcon
    have h2 : matchesTrainRegex tn = true := by
      cases hb : matchesTrainRegex tn
      · exact absurd hb hcon.2
      · rfl
    obtain ⟨r, hr⟩ := fetchTrain_not_error tn date st hcon.1 h2
    rw [hr] at hmsg
    exact ApiOutput.noConfusion hmsg
  · rintro (h | h)
    · exact ⟨"Train number is required", by unfold fetchTrain; rw [if_pos h]⟩
    · by_cases h0 : tn = ""
      · exact ⟨"Train number is required", by unfold fetchTrain; rw [if_pos h0]⟩
      · refine ⟨"Invalid train number format - must be 5 digits", ?_⟩
        unfold fetchTrain
        rw [if_neg h0, h]
        rfl

/-- The regex model accepts a single trailing newline (as Python's `$` does),
and on such a verbatim `valid=true` train number the fetcher proceeds to fetch
and returns a record rather than an error dictionary. -/
lemma fetch_accepts_trailing_newline :
    matchesTrainRegex ⟨['1', '2', '3', '4', '5', '\n']⟩ = true ∧
    (RailwayAPITool.run
        (.parsed { valid := some true,
                   train_number := some ⟨['1', '2', '3', '4', '5', '\n']⟩ }) stFail).1 =
      .record (get_mock_data ⟨['1', '2', '3', '4', '5', '\n']⟩ 0 mockRand0
        "Search failed: boom") :=
  ⟨by decide, rfl⟩

/-- C1 (amended): the fetcher is a total function (never raises) and returns
an error dictionary exactly when the input parse failed, the validation flag is
false, or the train number is missing/empty or rejected by the 5-digit regex
(which, like Python's `$` anchor, also accepts five digits followed by one
trailing newline on the verbatim `valid=true` train number) — otherwise it
returns a status record (mock data on live-source failure).  When the
validation flag is false it returns at once: the cache is unchanged and the
result does not depend on the search outcome, the clock or the random
draws. -/
theorem c1_fetcher_error_contract (p : ParseOutcome) (st : ApiState) :
    ((∃ msg, (RailwayAPITool.run p st).1 = .errorOut msg) ↔ inputErr p)
    ∧ (∀ d, p = .parsed d → d.valid = some false →
        (RailwayAPITool.run p st).2 = st.cache ∧
        ∀ st2 : ApiState, st2.cache = st.cache →
          RailwayAPITool.run p st2 = RailwayAPITool.run p st) := by
  constructor
  · cases p with
    | parseFailure msg =>
      simp [RailwayAPITool.run, inputErr]
    | parsed d =>
      unfold RailwayAPITool.run runParsed inputErr effTrain
      dsimp only
      cases hv : d.valid with
      | some v =>
        cases v with
        | false =>
          dsimp only
          constructor
          · intro _; exact Or.inl rfl
          · intro _; exact ⟨_, rfl⟩
        | true =>
          dsimp only
          simp only [Bool.not_true, Bool.false_eq_true, if_false]
          rw [fetchTrain_error_iff]
          constructor
          · intro h; exact Or.inr h
          · rintro (h | h)
            · exact Option.noConfusion h (fun h => Bool.noConfusion h)
            · exact h
      | none =>
        dsimp only
        rw [fetchTrain_error_iff]
        constructor
        · intro h; exact Or.inr h
        · rintro (h | h)
          · exact Option.noConfusion h
          · exact h
  · rintro d rfl hvf
    constructor
    · unfold RailwayAPITool.run runParsed
      dsimp only
      rw [hvf]
      rfl
    · intro st2 hcache
      unfold RailwayAPITool.run runParsed
      dsimp only
      rw [hvf, hcache]
      rfl

/-- Witness for C1: a failed-validation input leaves the cache unchanged and
ignores the search outcome. -/
theorem c1_fetcher_error_contract_witness :
    (RailwayAPITool.run (.parsed dictBad) stFail).2 = stFail.cache ∧
    RailwayAPITool.run (.parsed dictBad) stOk = RailwayAPITool.run (.parsed dictBad) stFail := by
  have h := (c1_fetcher_error_contract (.parsed dictBad) stFail).2 dictBad rfl rfl
  exact ⟨h.1, h.2 stOk rfl⟩

/-- C1 counterexample: an input with `valid=true` but a malformed train number
still yields an error dictionary, refuting "ErrorRecord iff valid=false". -/
theorem c1_error_iff_counterexample :
    (RailwayAPITool.run
        (.parsed { valid := some true, train_number := some "123" }) stFail).1 =
      .errorOut "Invalid train number format - must be 5 digits"
    ∧ ({ valid := some true, train_number := some "123" } :
        ParsedDict).valid ≠ some false :=
  ⟨rfl, by decide⟩

/-- Reduction of the fetcher on a well-formed validated input. -/
lemma run_eq_fetchTrain (d : ParsedDict) (tn : String)
    (hv : d.valid = some true) (htn : d.train_number = some tn) :
    ∀ s : ApiState, RailwayAPITool.run (.parsed d) s = fetchTrain tn d.date s := by
  intro s
  unfold RailwayAPITool.run runParsed
  dsimp only
  rw [hv, htn]
  rfl

/-- C2 (amended): on a cache miss, a record obtained from a successful live
search is written into the cache (annotated `source="web_search"`) before being
returned; but when the live search fails, the mock record is returned with the
cache left unchanged — mock fallback results produced by a search failure are
NOT cached. -/
theorem c2_cache_write_policy (d : ParsedDict) (st : ApiState) (tn : String)
    (hv : d.valid = some true) (htn : d.train_number = some tn) (h0 : tn ≠ "")
    (hpat : TrainValidationTool.matchesTrainPattern tn = true)
    (hmiss : st.cache.lookup (cacheKey tn d.date) = none) :
    (∀ results, st.search = .ok results →
      ((RailwayAPITool.run (.parsed d) st).2.lookup (cacheKey tn d.date) =
          some ({ extract_train_info results tn st.now st.oracles with
                  source := some "web_search" }, st.now)
        ∧ (RailwayAPITool.run (.parsed d) st).1 =
          .record { extract_train_info results tn st.now st.oracles with
                    source := some "web_search" }))
    ∧ (∀ e, st.search = .error e →
      ((RailwayAPITool.run (.parsed d) st).2 = st.cache
        ∧ (RailwayAPITool.run (.parsed d) st).1 =
          .record (get_mock_data tn st.now st.rand ("Search failed: " ++ e)))) := by
  have hfetch : RailwayAPITool.run (.parsed d) st = liveFetch tn (cacheKey tn d.date) st := by
    rw [run_eq_fetchTrain d tn hv htn st]
    unfold fetchTrain
    rw [if_neg h0, matchesTrainRegex_of_pattern tn hpat]
    dsimp only
    rw [hmiss]
    rfl
  rw [hfetch]
  constructor
  · intro results hs
    unfold liveFetch
    rw [hs]
    dsimp only
    refine ⟨?_, rfl⟩
    simp [List.lookup]
  · intro e hs
    unfold liveFetch
    rw [hs]
    exact ⟨rfl, rfl⟩

/-- Witness for C2: a successful empty search run writes the cache entry. -/
theorem c2_cache_write_policy_witness :
    (RailwayAPITool.run (.parsed dictOk) stOk).2.lookup (cacheKey "12345" dictOk.date) =
      some ({ extract_train_info [] "12345" stOk.now stOk.oracles with
              source := some "web_search" }, stOk.now) :=
  ((c2_cache_write_policy dictOk stOk "12345" rfl rfl (by decide) (by decide) rfl).1
    [] rfl).1

/-- C2 counterexample: with a failing live source, the mock record is returned
yet the cache stays empty — the mock fetch result is not written to the cache. -/
theorem c2_mock_not_cached_counterexample :
    (RailwayAPITool.run (.parsed dictOk) stFail).2 = []
    ∧ (RailwayAPITool.run (.parsed dictOk) stFail).1 =
        .record (get_mock_data "12345" 0 mockRand0 "Search failed: boom")
    ∧ (get_mock_data "12345" 0 mockRand0 "Search failed: boom").data_source =
        "mock_data" :=
  ⟨rfl, rfl, rfl⟩

/-- C3 (amended): a cache entry younger than 300 seconds is returned with its
`source` annotation set to `"cache"` (its `data_source` field keeps the cached
value), and a second fetch for the same key within 300 seconds of a live fetch
returns a record identical to the first except for the `source` annotation. -/
theorem c3_cache_hit_source (d : ParsedDict) (st st2 : ApiState) (tn : String)
    (hv : d.valid = some true) (htn : d.train_number = some tn) (h0 : tn ≠ "")
    (hpat : TrainValidationTool.matchesTrainPattern tn = true) :
    (∀ r t, st.cache.lookup (cacheKey tn d.date) = some (r, t) → st.now - t < 300 →
      (RailwayAPITool.run (.parsed d) st).1 = .record { r with source := some "cache" })
    ∧ (∀ results r1, st.cache.lookup (cacheKey tn d.date) = none →
        st.search = .ok results →
        (RailwayAPITool.run (.parsed d) st).1 = .record r1 →
        st2.cache = (RailwayAPITool.run (.parsed d) st).2 →
        st2.now - st.now < 300 →
        (RailwayAPITool.run (.parsed d) st2).1 =
          .record { r1 with source := some "cache" }) := by
  constructor
  · intro r t hc hfresh
    rw [run_eq_fetchTrain d tn hv htn st]
    unfold fetchTrain
    rw [if_neg h0, matchesTrainRegex_of_pattern tn hpat]
    dsimp only
    rw [hc]
    dsimp only
    rw [if_pos hfresh]
    rfl
  · intro results r1 hmiss hs hr1 hcache2 hfresh
    have h1 : (RailwayAPITool.run (.parsed d) st).1 =
        .record ({ extract_train_info results tn st.now st.oracles with
                   source := some "web_search" }) ∧
        (RailwayAPITool.run (.parsed d) st).2 =
          (cacheKey tn d.date,
            { extract_train_info results tn st.now st.oracles with
              source := some "web_search" }, st.now) :: st.cache := by
      rw [run_eq_fetchTrain d tn hv htn st]
      unfold fetchTrain liveFetch
      rw [if_neg h0, matchesTrainRegex_of_pattern tn hpat]
      dsimp only
      rw [hmiss]
      dsimp only
      rw [hs]
      exact ⟨rfl, rfl⟩
    have hr1eq : r1 = { extract_train_info results tn st.now st.oracles with
                        source := some "web_search" } := by
      rw [h1.1] at hr1
      injection hr1 with h
      exact h.symm
    have hl2 : st2.cache.lookup (cacheKey tn d.date) =
        some ({ extract_train_info results tn st.now st.oracles with
                source := some "web_search" }, st.now) := by
      rw [hcache2, h1.2]
      simp [List.lookup]
    rw [run_eq_fetchTrain d tn hv htn st2]
    unfold fetchTrain
    rw [if_neg h0, matchesTrainRegex_of_pattern tn hpat]
    dsimp only
    rw [hl2]
    dsimp only
    rw [if_pos hfresh, hr1eq]
    rfl

/-- Witness for C3: a 10-second-old cache entry is served with the cache
annotation. -/
theorem c3_cache_hit_source_witness :
    (RailwayAPITool.run (.parsed dictOk) stHit).1 =
      .record { recWeb with source := some "cache" } :=
  (c3_cache_hit_source dictOk stHit stHit "12345" rfl rfl (by decide)
    (by decide)).1 recWeb 0 rfl (by decide)

/-- C3 counterexample: the fresh-hit record keeps `data_source = "web_search"`;
it is the `source` annotation, not the `data_source` field, that is set to
`"cache"`. -/
theorem c3_data_source_counterexample :
    (RailwayAPITool.run (.parsed dictOk) stHit).1 =
      .record { recWeb with source := some "cache" }
    ∧ ({ recWeb with source := some "cache" } : TrainRecord).data_source ≠ "cache" :=
  ⟨rfl, by decide⟩
